import Mathlib

/-!
Verification of the `mini-nginx` edge server (`src/nginx-clone/mini-nginx.py`).

The Python source is shallowly embedded below: pure helpers become Lean
functions, the request handlers become functions from explicit request /
filesystem data to a `Response` value, and the standard-library pieces the
handler calls (`os.path.normpath`, `os.path.join`, `urllib.parse.unquote`,
`hashlib.sha1`, `http.server.BaseHTTPRequestHandler.send_error`) are
translated here at the level of detail the verified properties need.

Modelling conventions:
- machine integers are `Nat`/`Int` with explicit `% 2^32` where the SHA-1
  computation overflows;
- byte strings are `List Nat` (each entry a byte value);
- `send_response` is modelled as appending a status line to the response
  buffer and `send_header` as appending to the header list, matching the
  buffering of `http.server`: `send_response` never removes a previously
  buffered status line, so a handler that issues `send_response` twice
  before `end_headers` flushes both lines, and the client parses the first
  one as the response status (the second arrives as a malformed header
  line).  A `Response` therefore records every status line in buffer order,
  and `Response.status` is the first — the status the client sees;
- external effectful collaborators that are not part of this repository
  (the gzip compressor, the `If-Modified-Since` date parser, the MIME
  guesser, the backend reached over the network) enter the definitions as
  explicit function arguments, and the theorems quantify over them;
- timestamps are integral seconds (`Int`), which is the granularity of the
  HTTP dates the server compares.
-/

set_option autoImplicit false

namespace MiniNginx

/-- Byte strings: lists of byte values. -/
abbrev Bytes := List Nat

/-! ## Basic string helpers (models of the Python `str` methods used) -/

/-- `strncmpStart p l` is true iff `p` is an initial segment of `l`. -/
def strncmpStart {α : Type} [DecidableEq α] : List α → List α → Bool
  | [], _ => true
  | _ :: _, [] => false
  | a :: as, b :: bs => a = b && strncmpStart as bs

/-- Model of Python `s.startswith(p)`. -/
def pyStartsWith (s p : String) : Bool := strncmpStart p.data s.data

/-- Model of Python `s.endswith(p)`. -/
def pyEndsWith (s p : String) : Bool := strncmpStart p.data.reverse s.data.reverse

/-- `containsSub hay needle` is true iff `needle` occurs contiguously in
`hay`: the model of Python's `needle in hay` on strings. -/
def containsSub {α : Type} [DecidableEq α] : List α → List α → Bool
  | [], needle => strncmpStart needle []
  | hay@(_ :: t), needle => strncmpStart needle hay || containsSub t needle

/-- Model of Python `needle in hay` for strings. -/
def pyContains (hay needle : String) : Bool := containsSub hay.data needle.data

/-- Model of Python `s.lstrip('/')`: drop every leading `'/'`. -/
def lstripSlash (s : String) : String := ⟨s.data.dropWhile (· = '/')⟩

/-- ASCII lower-casing of one character. -/
def lowerChar (c : Char) : Char :=
  if 'A' ≤ c ∧ c ≤ 'Z' then Char.ofNat (c.toNat + 32) else c

/-- Model of Python `s.lower()` on the ASCII header names involved. -/
def pyLower (s : String) : String := ⟨s.data.map lowerChar⟩

/-- Byte image of the (ASCII) strings the server emits.  The Python code
encodes with UTF-8; on the ASCII strings handled here the two agree. -/
def strBytes (s : String) : Bytes := s.data.map Char.toNat

/-- Model of `html.escape(s, quote=False)` as used by `send_error`:
escape `&`, `<` and `>`. -/
def htmlEscape (s : String) : String :=
  ⟨s.data.foldr (fun c acc =>
    if c = '&' then '&' :: 'a' :: 'm' :: 'p' :: ';' :: acc
    else if c = '<' then '&' :: 'l' :: 't' :: ';' :: acc
    else if c = '>' then '&' :: 'g' :: 't' :: ';' :: acc
    else c :: acc) []⟩

/-- Model of Python `int(s)` on decimal literals: optional surrounding
whitespace, optional sign, at least one digit.  Returns `none` where `int()`
raises `ValueError`. -/
def digitsVal : List Char → Option Nat
  | [] => none
  | cs => cs.foldl (fun acc c =>
      match acc with
      | none => none
      | some n => if c.isDigit then some (n * 10 + (c.toNat - 48)) else none)
      (some 0)

def pyInt (s : String) : Option Int :=
  let cs := (s.data.dropWhile Char.isWhitespace).reverse.dropWhile Char.isWhitespace |>.reverse
  match cs with
  | '-' :: rest => (digitsVal rest).map (fun n => -(n : Int))
  | '+' :: rest => (digitsVal rest).map (fun n => (n : Int))
  | rest => (digitsVal rest).map (fun n => (n : Int))

/-! ## SHA-1 (model of `hashlib.sha1(...).hexdigest()`) -/

/-- Truncate to 32 bits. -/
def w32 (n : Nat) : Nat := n % 4294967296

/-- Rotate a 32-bit value left by `b` bits. -/
def rotl (b n : Nat) : Nat := (n * 2 ^ b + n / 2 ^ (32 - b)) % 4294967296

def sha1K (i : Nat) : Nat :=
  if i < 20 then 1518500249
  else if i < 40 then 1859775393
  else if i < 60 then 2400959708
  else 3395469782

def sha1F (i b c d : Nat) : Nat :=
  if i < 20 then (b &&& c) ||| ((4294967295 - b) &&& d)
  else if i < 40 then b ^^^ c ^^^ d
  else if i < 60 then (b &&& c) ||| (b &&& d) ||| (c &&& d)
  else b ^^^ c ^^^ d

/-- One step of the SHA-1 message schedule, over the already-scheduled words
listed newest first. -/
def sha1Extend (wsRev : List Nat) : Nat :=
  rotl 1 ((wsRev.getD 2 0) ^^^ (wsRev.getD 7 0) ^^^ (wsRev.getD 13 0) ^^^ (wsRev.getD 15 0))

/-- Extend the schedule `fuel` more times; the result lists all words oldest
first. -/
def sha1Schedule : Nat → List Nat → List Nat
  | 0, wsRev => wsRev.reverse
  | fuel + 1, wsRev => sha1Schedule fuel (sha1Extend wsRev :: wsRev)

abbrev Sha1State := Nat × Nat × Nat × Nat × Nat

def sha1Round (i : Nat) (st : Sha1State) (wi : Nat) : Sha1State :=
  let (a, b, c, d, e) := st
  let temp := w32 (rotl 5 a + sha1F i b c d + e + sha1K i + wi)
  (temp, a, rotl 30 b, c, d)

/-- Compress a single 16-word block into the running hash state. -/
def sha1Block (h : Sha1State) (block16 : List Nat) : Sha1State :=
  let ws := sha1Schedule 64 block16.reverse
  let (_, st) := ws.foldl (fun (p : Nat × Sha1State) w => (p.1 + 1, sha1Round p.1 p.2 w))
    ((0, h) : Nat × Sha1State)
  let (h0, h1, h2, h3, h4) := h
  let (a, b, c, d, e) := st
  (w32 (h0 + a), w32 (h1 + b), w32 (h2 + c), w32 (h3 + d), w32 (h4 + e))

/-- Group bytes into big-endian 32-bit words. -/
def bytesToWords : Bytes → List Nat
  | b0 :: b1 :: b2 :: b3 :: rest =>
      ((((b0 % 256) * 256 + b1 % 256) * 256 + b2 % 256) * 256 + b3 % 256) :: bytesToWords rest
  | _ => []

/-- SHA-1 padding: append `0x80`, zero bytes to 56 mod 64, then the bit
length as 8 big-endian bytes. -/
def sha1Pad (msg : Bytes) : Bytes :=
  let ml := msg.length
  let k := (119 - ml % 64) % 64
  let bl := 8 * ml
  msg.map (· % 256) ++ [128] ++ List.replicate k 0 ++
    [bl / 2 ^ 56 % 256, bl / 2 ^ 48 % 256, bl / 2 ^ 40 % 256, bl / 2 ^ 32 % 256,
     bl / 2 ^ 24 % 256, bl / 2 ^ 16 % 256, bl / 2 ^ 8 % 256, bl % 256]

/-- Run the compression function over the padded words, 16 at a time. -/
def sha1Process (init : Sha1State) (ws : List Nat) : Sha1State :=
  (ws.foldl (fun p w =>
    let buf := p.2 ++ [w]
    if buf.length = 16 then (sha1Block p.1 buf, []) else (p.1, buf)) (init, [])).1

def hexDigit (n : Nat) : Char := if n < 10 then Char.ofNat (48 + n) else Char.ofNat (87 + n)

def hex8 (n : Nat) : List Char :=
  (List.range 8).map (fun i => hexDigit (n / 2 ^ (4 * (7 - i)) % 16))

/-- Model of `generate_etag_bytes` (mini-nginx.py line 35): the SHA-1 hex
digest of the file bytes. -/
def generate_etag_bytes (data : Bytes) : String :=
  let (h0, h1, h2, h3, h4) :=
    sha1Process (1732584193, 4023233417, 2562383102, 271733878, 3285377520)
      (bytesToWords (sha1Pad data))
  ⟨hex8 h0 ++ hex8 h1 ++ hex8 h2 ++ hex8 h3 ++ hex8 h4⟩

/-! ## URL and filesystem path machinery -/

/-- Model of `urllib.parse.urlparse(url).path` for origin-form request
targets: the characters before the first `?` (query) or `#` (fragment). -/
def urlparsePath (s : String) : String :=
  ⟨s.data.takeWhile (fun c => !(c == '?' || c == '#'))⟩

def hexVal (c : Char) : Option Nat :=
  if '0' ≤ c ∧ c ≤ '9' then some (c.toNat - 48)
  else if 'a' ≤ c ∧ c ≤ 'f' then some (c.toNat - 87)
  else if 'A' ≤ c ∧ c ≤ 'F' then some (c.toNat - 55)
  else none

/-- Model of `urllib.parse.unquote` on the ASCII fragment relevant here: a
`%hh` escape with two hex digits becomes the character of that code point
(the claims only involve ASCII escapes, where this agrees with Python's
UTF-8 decoding); a `%` not followed by two hex digits stays literal. -/
def unquoteChars : List Char → List Char
  | [] => []
  | '%' :: h1 :: h2 :: rest =>
    match hexVal h1, hexVal h2 with
    | some a, some b => Char.ofNat (16 * a + b) :: unquoteChars rest
    | _, _ => '%' :: unquoteChars (h1 :: h2 :: rest)
  | c :: rest => c :: unquoteChars rest

def unquote (s : String) : String := ⟨unquoteChars s.data⟩

/-- Model of Python `s.split(sep)` for a one-character separator (keeps
empty components, as Python does). -/
def pySplitChar (sep : Char) (s : List Char) : List (List Char) :=
  s.foldr (fun c acc =>
    match acc with
    | [] => [[c]]
    | a :: rest => if c = sep then [] :: a :: rest else (c :: a) :: rest) [[]]

/-- One step of the `new_comps` loop in `posixpath.normpath`. -/
def normStep (initialSlashes : Nat) (acc : List (List Char)) (comp : List Char) :
    List (List Char) :=
  if comp = [] ∨ comp = ['.'] then acc
  else if comp ≠ ['.', '.'] ∨ (initialSlashes = 0 ∧ acc = []) ∨
      (acc ≠ [] ∧ acc.getLast? = some ['.', '.']) then
    acc ++ [comp]
  else if acc ≠ [] then acc.dropLast
  else acc

/-- Model of `os.path.normpath` (POSIX flavour): drop empty and `.`
components, resolve `..` against preceding components, keep leading `..`s,
preserve one or two leading slashes. -/
def normpath (s : String) : String :=
  if s = "" then "."
  else
    let initialSlashes : Nat :=
      if pyStartsWith s "/" then
        (if pyStartsWith s "//" && !(pyStartsWith s "///") then 2 else 1)
      else 0
    let newComps := (pySplitChar '/' s.data).foldl (normStep initialSlashes) []
    let full := List.replicate initialSlashes '/' ++ List.intercalate ['/'] newComps
    if full = [] then "." else ⟨full⟩

/-- Model of `os.path.join` (POSIX) for two components: an absolute second
component discards the first. -/
def osPathJoin (a b : String) : String :=
  if pyStartsWith b "/" then b
  else if (a == "") || pyEndsWith a "/" then a ++ b
  else a ++ "/" ++ b

/-! ## Filesystem model -/

structure FSFile where
  path : String
  content : Bytes
  mtime : Int
  deriving DecidableEq

/-- A snapshot of the parts of the filesystem the handler consults:
regular files (with bytes and `st_mtime`) and directories. -/
structure FileSystem where
  files : List FSFile
  dirs : List String
  deriving DecidableEq

def FileSystem.lookup (fs : FileSystem) (p : String) : Option FSFile :=
  fs.files.find? (fun f => f.path == p)

/-- Model of `os.path.isdir`. -/
def FileSystem.isdir (fs : FileSystem) (p : String) : Bool :=
  fs.dirs.contains p

/-- Model of `os.path.exists`. -/
def FileSystem.pathExists (fs : FileSystem) (p : String) : Bool :=
  (fs.lookup p).isSome || fs.isdir p

/-! ## Response model -/

/-- The response as assembled through `send_response` / `send_header` /
`end_headers` / `wfile.write`: every status line appended to the buffer by
`send_response`, in order; the headers in the order sent; and the body bytes
written (`none` when no body is written, as for conditional and HEAD
responses — distinct from an empty body).  `http.server` buffers each
`send_response` as one more status line and flushes the whole buffer at
`end_headers`, so a handler calling `send_response` twice emits two status
lines: the client parses the first as the response status and meets the
second as a malformed header line.  The `Server`/`Date` headers
`http.server` adds by itself are not modelled. -/
structure Response where
  statusLines : List Nat
  headers : List (String × String)
  body : Option Bytes
  deriving DecidableEq

/-- The status the client parses: the first status line flushed. -/
def Response.status (r : Response) : Nat := r.statusLines.headD 0

/-- All values sent for header `name` (exact case), in order. -/
def getHeader (r : Response) (name : String) : List String :=
  (r.headers.filter (fun kv => kv.1 == name)).map (·.2)

/-- `http.HTTPStatus` long descriptions for the codes the server uses. -/
def statusExplain (code : Nat) : String :=
  if code = 403 then "Request forbidden -- authorization will not help"
  else if code = 404 then "Nothing matches the given URI"
  else if code = 500 then "Server got itself in trouble"
  else if code = 502 then "Invalid responses from another server/proxy."
  else ""

/-- The rendered `DEFAULT_ERROR_MESSAGE` template of `http.server`, with
`%(code)d`, `%(message)s` and `%(explain)s` substituted. -/
def errorHTML (code : Nat) (message explain : String) : String :=
  "<!DOCTYPE HTML>\n<html lang=\"en\">\n    <head>\n        <meta charset=\"utf-8\">\n        <title>Error response</title>\n    </head>\n    <body>\n        <h1>Error response</h1>\n        <p>Error code: " ++
    toString code ++ "</p>\n        <p>Message: " ++ htmlEscape message ++
    ".</p>\n        <p>Error code explanation: " ++ toString code ++ " - " ++
    htmlEscape explain ++ ".</p>\n    </body>\n</html>\n"

/-- Model of `BaseHTTPRequestHandler.send_error(code, message)` for a GET
request: the error page with the (HTML-escaped) message interpolated. -/
def sendError (code : Nat) (message : String) : Response :=
  let body := strBytes (errorHTML code message (statusExplain code))
  { statusLines := [code]
    headers := [("Connection", "close"),
                ("Content-Type", "text/html;charset=utf-8"),
                ("Content-Length", toString body.length)]
    body := some body }

/-! ## HTTP date rendering (model of `email.utils.format_datetime(·, usegmt=True)`) -/

def pad2 (n : Nat) : String := if n < 10 then "0" ++ toString n else toString n

def dayName (i : Nat) : String :=
  ["Mon", "Tue", "Wed", "Thu", "Fri", "Sat", "Sun"].getD i ""

def monthName (m : Nat) : String :=
  ["Jan", "Feb", "Mar", "Apr", "May", "Jun", "Jul", "Aug", "Sep", "Oct", "Nov",
    "Dec"].getD (m - 1) ""

/-- Gregorian `(year, month, day)` from days since the Unix epoch. -/
def civilFromDays (z0 : Int) : Int × Nat × Nat :=
  let z := z0 + 719468
  let era := z.fdiv 146097
  let doe := (z - era * 146097).toNat
  let yoe := (doe - doe / 1460 + doe / 36524 - doe / 146096) / 365
  let doy := doe - (365 * yoe + yoe / 4 - yoe / 100)
  let mp := (5 * doy + 2) / 153
  let d := doy - (153 * mp + 2) / 5 + 1
  let m := if mp < 10 then mp + 3 else mp - 9
  ((if m ≤ 2 then (yoe : Int) + era * 400 + 1 else (yoe : Int) + era * 400), m, d)

/-- IMF-fixdate rendering of an epoch timestamp, e.g.
`Sun, 06 Nov 1994 08:49:37 GMT`. -/
def formatHTTPDate (t : Int) : String :=
  let days := t.fdiv 86400
  let rem := (t - days * 86400).toNat
  let ymd := civilFromDays days
  let wd := ((days.emod 7).toNat + 3) % 7
  dayName wd ++ ", " ++ pad2 ymd.2.2 ++ " " ++ monthName ymd.2.1 ++ " " ++
    toString ymd.1 ++ " " ++ pad2 (rem / 3600) ++ ":" ++ pad2 (rem % 3600 / 60) ++
    ":" ++ pad2 (rem % 60) ++ " GMT"

/-! ## Static file serving (`MiniNginxHandler._serve_static`, lines 133-195) -/

/-- Model of `is_compressible` (line 32). -/
def is_compressible (mime : String) : Bool :=
  pyStartsWith mime "text/" || mime == "application/javascript" ||
    mime == "application/json" || pyEndsWith mime "+xml"

/-- The `cache_control` chosen on lines 141-147, by file extension. -/
def cacheControlFor (fullPath : String) : String :=
  if pyEndsWith fullPath ".html" then "no-cache"
  else if [".css", ".js", ".png", ".jpg", ".jpeg", ".svg",
      ".ico"].any (fun e => pyEndsWith fullPath e) then "public, max-age=2592000"
  else "public, max-age=3600"

/-- The `Content-Type` value sent on line 154. -/
def contentTypeFor (mime : String) : String :=
  mime ++ (if pyStartsWith mime "text/" || mime == "application/json" then "; charset=utf-8"
    else "")

/-- The request headers `_serve_static` reads (each via `self.headers.get`;
`acceptEncoding` carries the `''` default of line 181). -/
structure StaticReq where
  ifNoneMatch : Option String
  ifModifiedSince : Option String
  acceptEncoding : String
  deriving DecidableEq

/-- Model of `_serve_static`.  External collaborators appear as arguments:
`gz` is the whole-body `gzip` compressor of lines 185-188, `parsedate` is
`email.utils.parsedate_to_datetime` (as epoch seconds; `none` where parsing
raises, which line 177 swallows), `mimeGuess` is
`mimetypes.guess_type(full_path)[0]`.  `data` and `mtime` are the file's
bytes and `st_mtime`.  Note the buffering order of the source: line 153
issues `send_response(200)` and lines 154-158 the cache headers before the
conditional checks; the conditional branches then issue `send_response(304)`
(lines 164, 174) as a second buffered status line. -/
def serveStatic (gz : Bytes → Bytes) (parsedate : String → Option Int)
    (mimeGuess : Option String) (fullPath : String) (data : Bytes) (mtime : Int)
    (req : StaticReq) (headOnly : Bool) : Response :=
  let mime := mimeGuess.getD "application/octet-stream"
  let etag := generate_etag_bytes data
  let baseHeaders := [("Content-Type", contentTypeFor mime),
                      ("Cache-Control", cacheControlFor fullPath),
                      ("ETag", etag),
                      ("Last-Modified", formatHTTPDate mtime),
                      ("Vary", "Accept-Encoding")]
  if req.ifNoneMatch = some etag then
    { statusLines := [200, 304], headers := baseHeaders, body := none }
  else
    let notModified :=
      match req.ifModifiedSince with
      | none => false
      | some s =>
        match parsedate s with
        | none => false
        | some t => mtime ≤ t
    if notModified then { statusLines := [200, 304], headers := baseHeaders, body := none }
    else
      let shouldGzip := pyContains req.acceptEncoding "gzip" && is_compressible mime
      let bodyBytes := if shouldGzip then gz data else data
      { statusLines := [200]
        headers := baseHeaders ++
          (if shouldGzip then [("Content-Encoding", "gzip")] else []) ++
          [("Content-Length", toString bodyBytes.length)]
        body := if headOnly then none else some bodyBytes }

/-! ## Request routing (`MiniNginxHandler.do_GET`, lines 51-87) -/

inductive RouteResult where
  | statusEp : RouteResult
  | proxy : String → RouteResult
  | forbidden : RouteResult
  | notFound : RouteResult
  | serve : String → RouteResult
  deriving DecidableEq

/-- The decoded relative path of lines 61-64: the url path with query and
fragment removed, leading slashes stripped, percent-decoded, defaulting to
`index.html` when empty. -/
def decodedRel (rawPath : String) : String :=
  let p := unquote (lstripSlash (urlparsePath rawPath))
  if p = "" then "index.html" else p

/-- Path classification and static resolution of `do_GET` (lines 53-82):
`/_status` and `/api...` short-circuit; otherwise the decoded path is
normalized, checked for a leading `..`, joined to the document root `root`,
directories get `index.html` appended, and missing files fall back to the
SPA `index.html` or 404. -/
def route (fs : FileSystem) (root : String) (rawPath : String) : RouteResult :=
  if rawPath = "/_status" then .statusEp
  else if pyStartsWith rawPath "/api" then .proxy rawPath
  else
    let normalized := normpath (decodedRel rawPath)
    if pyStartsWith normalized ".." then .forbidden
    else
      let full0 := osPathJoin root normalized
      let full1 := if fs.isdir full0 then osPathJoin full0 "index.html" else full0
      if fs.pathExists full1 then .serve full1
      else if fs.pathExists (osPathJoin root "index.html") then
        .serve (osPathJoin root "index.html")
      else .notFound

/-- The static-serving side of `do_GET`: route, then serve the resolved file
with `_serve_static`.  Returns `none` on the `/_status` and `/api` branches
(handled by other code) and on a `.serve` target that is not a regular file
(there `open()` raises and do_GET's line 86 answers 500, modelled by
`staticErrorResponse`). -/
def doGetStatic (gz : Bytes → Bytes) (parsedate : String → Option Int)
    (guess : String → Option String) (fs : FileSystem) (root : String)
    (rawPath : String) (req : StaticReq) (headOnly : Bool) : Option Response :=
  match route fs root rawPath with
  | .statusEp => none
  | .proxy _ => none
  | .forbidden => some (sendError 403 "Forbidden")
  | .notFound => some (sendError 404 "Not Found")
  | .serve f =>
    match fs.lookup f with
    | some file =>
      some (serveStatic gz parsedate (guess f) f file.content file.mtime req headOnly)
    | none => none

/-- The 500 response of `do_GET`'s exception handler (line 86):
`send_error(500, f"Server error: {e}")` with `e` the exception text. -/
def staticErrorResponse (e : String) : Response :=
  sendError 500 ("Server error: " ++ e)

/-! ## Reverse proxy (`MiniNginxHandler._handle_proxy`, lines 97-131) -/

/-- The inbound request as `_handle_proxy` sees it: `self.command`,
`self.path`, `self.headers` in received order (duplicates and letter case
preserved, as `email.message.Message` keeps them), and the bytes readable
from `self.rfile`. -/
structure ProxyInbound where
  method : String
  path : String
  headers : List (String × String)
  bodyStream : Bytes
  deriving DecidableEq

/-- First header value for `name`, case-insensitively: model of
`email.message.Message.get` / `__getitem__` / `in`. -/
def getFirstCI (hs : List (String × String)) (name : String) : Option String :=
  (hs.find? (fun kv => pyLower kv.1 == pyLower name)).map (·.2)

/-- Insertion into a Python dict modelled as a key-unique association list:
an existing key keeps its position and gets the new value, a new key is
appended. -/
def dictInsert (d : List (String × String)) (k v : String) : List (String × String) :=
  if d.any (fun kv => kv.1 == k) then
    d.map (fun kv => if kv.1 == k then (k, v) else kv)
  else d ++ [(k, v)]

/-- The outbound header dict of lines 104-105:
`{k: v for k, v in self.headers.items() if k.lower() != 'host'}` followed by
`headers['Host'] = BACKEND_HOST`. -/
def buildOutboundHeaders (backendHost : String) (hs : List (String × String)) :
    List (String × String) :=
  dictInsert
    (hs.foldl (fun d kv => if pyLower kv.1 == "host" then d else dictInsert d kv.1 kv.2) [])
    "Host" backendHost

/-- Body reading of lines 107-110; `.error` is the `ValueError` raised by
`int()` on an unparsable `Content-Length`, which the surrounding `try`
turns into a 502.  `rfile.read(n)` with negative `n` reads the whole
stream. -/
def parseBody (inb : ProxyInbound) : Except String (Option Bytes) :=
  match getFirstCI inb.headers "content-length" with
  | none => .ok none
  | some s =>
    match pyInt s with
    | none => .error ("invalid literal for int() with base 10: " ++ s)
    | some n => .ok (some (if n < 0 then inb.bodyStream else inb.bodyStream.take n.toNat))

structure ProxyOutbound where
  method : String
  path : String
  headers : List (String × String)
  body : Option Bytes
  deriving DecidableEq

/-- The request handed to `conn.request` on line 111. -/
def mkOutbound (backendHost : String) (inb : ProxyInbound) (b : Option Bytes) :
    ProxyOutbound :=
  { method := inb.method, path := inb.path,
    headers := buildOutboundHeaders backendHost inb.headers, body := b }

structure BackendResp where
  status : Nat
  reason : String
  headers : List (String × String)
  body : Bytes
  deriving DecidableEq

/-- Relay of lines 113-128: status and reason copied, `Transfer-Encoding`
and `Connection` stripped, `Vary: Accept-Encoding` appended, the body
streamed through unchanged. -/
def relayResponse (resp : BackendResp) : Response :=
  { statusLines := [resp.status]
    headers := (resp.headers.filter (fun kv =>
        !(pyLower kv.1 == "transfer-encoding") && !(pyLower kv.1 == "connection"))) ++
      [("Vary", "Accept-Encoding")]
    body := some resp.body }

/-- Model of `_handle_proxy`: `backend` stands for the whole HTTP exchange
with the backend; `.error e` is any exception raised while contacting it
(with text `e`), which line 131 turns into
`send_error(502, f"Proxy error: {e}")`. -/
def handleProxy (backendHost : String) (inb : ProxyInbound)
    (backend : ProxyOutbound → Except String BackendResp) : Response :=
  match parseBody inb with
  | .error e => sendError 502 ("Proxy error: " ++ e)
  | .ok b =>
    match backend (mkOutbound backendHost inb b) with
    | .error e => sendError 502 ("Proxy error: " ++ e)
    | .ok resp => relayResponse resp

/-- The per-name last value of a header list: what Python's dict
comprehension retains for a duplicated name. -/
def lastValue : List (String × String) → String → Option String
  | [], _ => none
  | kv :: tl, k =>
    match lastValue tl k with
    | some v => some v
    | none => if kv.1 == k then some kv.2 else none

/-- Lookup in a dict modelled as an association list. -/
def dlookup (d : List (String × String)) (k : String) : Option String :=
  (d.find? (fun kv => kv.1 == k)).map (·.2)

/-! ## Helper lemmas -/

lemma getHeader_serveStatic_etag (gz : Bytes → Bytes) (pd : String → Option Int)
    (mg : Option String) (fp : String) (data : Bytes) (mtime : Int) (req : StaticReq)
    (ho : Bool) :
    getHeader (serveStatic gz pd mg fp data mtime req ho) "ETag" =
      [generate_etag_bytes data] := by
  by_cases h1 : req.ifNoneMatch = some (generate_etag_bytes data)
  · simp [serveStatic, h1, getHeader]
  · simp only [serveStatic, h1, if_false]
    split
    · simp [getHeader]
    · simp [getHeader]
      try
        intro a b _ _ ha _
        subst ha
        decide

lemma getHeader_serveStatic_lastModified (gz : Bytes → Bytes) (pd : String → Option Int)
    (mg : Option String) (fp : String) (data : Bytes) (mtime : Int) (req : StaticReq)
    (ho : Bool) :
    getHeader (serveStatic gz pd mg fp data mtime req ho) "Last-Modified" =
      [formatHTTPDate mtime] := by
  by_cases h1 : req.ifNoneMatch = some (generate_etag_bytes data)
  · simp [serveStatic, h1, getHeader]
  · simp only [serveStatic, h1, if_false]
    split
    · simp [getHeader]
    · simp [getHeader]
      try
        intro a b _ _ ha _
        subst ha
        decide

lemma getHeader_serveStatic_cacheControl (gz : Bytes → Bytes) (pd : String → Option Int)
    (mg : Option String) (fp : String) (data : Bytes) (mtime : Int) (req : StaticReq)
    (ho : Bool) :
    getHeader (serveStatic gz pd mg fp data mtime req ho) "Cache-Control" =
      [cacheControlFor fp] := by
  by_cases h1 : req.ifNoneMatch = some (generate_etag_bytes data)
  · simp [serveStatic, h1, getHeader]
  · simp only [serveStatic, h1, if_false]
    split
    · simp [getHeader]
    · simp [getHeader]
      try
        intro a b _ _ ha _
        subst ha
        decide

lemma getHeader_serveStatic_vary (gz : Bytes → Bytes) (pd : String → Option Int)
    (mg : Option String) (fp : String) (data : Bytes) (mtime : Int) (req : StaticReq)
    (ho : Bool) :
    getHeader (serveStatic gz pd mg fp data mtime req ho) "Vary" =
      ["Accept-Encoding"] := by
  by_cases h1 : req.ifNoneMatch = some (generate_etag_bytes data)
  · simp [serveStatic, h1, getHeader]
  · simp only [serveStatic, h1, if_false]
    split
    · simp [getHeader]
    · simp [getHeader]
      try
        intro a b _ _ ha _
        subst ha
        decide

lemma getHeader_serveStatic_contentType (gz : Bytes → Bytes) (pd : String → Option Int)
    (mg : Option String) (fp : String) (data : Bytes) (mtime : Int) (req : StaticReq)
    (ho : Bool) :
    getHeader (serveStatic gz pd mg fp data mtime req ho) "Content-Type" =
      [contentTypeFor (mg.getD "application/octet-stream")] := by
  by_cases h1 : req.ifNoneMatch = some (generate_etag_bytes data)
  · simp [serveStatic, h1, getHeader]
  · simp only [serveStatic, h1, if_false]
    split
    · simp [getHeader]
    · simp [getHeader]
      try
        intro a b _ _ ha _
        subst ha
        decide

/-! ## Claims -/

/-- C1 (code bug): on a request whose `If-None-Match` equals the SHA-1
hash of the file's current bytes, `_serve_static` has already buffered the
`200 OK` status line and the cache headers (lines 153-158) when it issues
`send_response(304)` (line 164): both status lines are flushed together, so
the client parses status 200 — the program never delivers a 304.  The rest
of the claim does hold: no body is written, no `Content-Length` is sent,
and the `Cache-Control`, `ETag`, `Last-Modified` and `Vary` values equal
those of the unconditional 200 response. -/
theorem c1_etag_match_emits_both_status_lines (gz : Bytes → Bytes)
    (pd : String → Option Int) (mg : Option String) (fp : String) (data : Bytes)
    (mtime : Int) (ims : Option String) (ae : String) (ho : Bool) :
    (serveStatic gz pd mg fp data mtime ⟨some (generate_etag_bytes data), ims, ae⟩ ho).statusLines
        = [200, 304] ∧
    (serveStatic gz pd mg fp data mtime ⟨some (generate_etag_bytes data), ims, ae⟩ ho).status
        = 200 ∧
    (serveStatic gz pd mg fp data mtime ⟨some (generate_etag_bytes data), ims, ae⟩ ho).body
        = none ∧
    getHeader (serveStatic gz pd mg fp data mtime ⟨some (generate_etag_bytes data), ims, ae⟩ ho)
        "Content-Length" = [] ∧
    (serveStatic gz pd mg fp data mtime ⟨none, none, ae⟩ ho).statusLines = [200] ∧
    getHeader (serveStatic gz pd mg fp data mtime ⟨some (generate_etag_bytes data), ims, ae⟩ ho)
        "Cache-Control" =
      getHeader (serveStatic gz pd mg fp data mtime ⟨none, none, ae⟩ ho) "Cache-Control" ∧
    getHeader (serveStatic gz pd mg fp data mtime ⟨some (generate_etag_bytes data), ims, ae⟩ ho)
        "ETag" =
      getHeader (serveStatic gz pd mg fp data mtime ⟨none, none, ae⟩ ho) "ETag" ∧
    getHeader (serveStatic gz pd mg fp data mtime ⟨some (generate_etag_bytes data), ims, ae⟩ ho)
        "Last-Modified" =
      getHeader (serveStatic gz pd mg fp data mtime ⟨none, none, ae⟩ ho) "Last-Modified" ∧
    getHeader (serveStatic gz pd mg fp data mtime ⟨some (generate_etag_bytes data), ims, ae⟩ ho)
        "Vary" =
      getHeader (serveStatic gz pd mg fp data mtime ⟨none, none, ae⟩ ho) "Vary" := by
  refine ⟨?_, ?_, ?_, ?_, ?_, ?_, ?_, ?_, ?_⟩
  · simp [serveStatic]
  · simp [serveStatic, Response.status]
  · simp [serveStatic]
  · simp [serveStatic, getHeader]
  · simp [serveStatic]
  · rw [getHeader_serveStatic_cacheControl, getHeader_serveStatic_cacheControl]
  · rw [getHeader_serveStatic_etag, getHeader_serveStatic_etag]
  · rw [getHeader_serveStatic_lastModified, getHeader_serveStatic_lastModified]
  · rw [getHeader_serveStatic_vary, getHeader_serveStatic_vary]

/-- C6: two static requests differing only in `Accept-Encoding` receive the
same `ETag` and `Last-Modified` headers, and the `ETag` is the hash of the
uncompressed file bytes, independent of the compression decision. -/
theorem c6_etag_independent_of_accept_encoding (gz : Bytes → Bytes)
    (pd : String → Option Int) (mg : Option String) (fp : String) (data : Bytes)
    (mtime : Int) (inm : Option String) (ims : Option String) (ae₁ ae₂ : String)
    (ho : Bool) :
    getHeader (serveStatic gz pd mg fp data mtime ⟨inm, ims, ae₁⟩ ho) "ETag" =
      getHeader (serveStatic gz pd mg fp data mtime ⟨inm, ims, ae₂⟩ ho) "ETag" ∧
    getHeader (serveStatic gz pd mg fp data mtime ⟨inm, ims, ae₁⟩ ho) "Last-Modified" =
      getHeader (serveStatic gz pd mg fp data mtime ⟨inm, ims, ae₂⟩ ho) "Last-Modified" ∧
    getHeader (serveStatic gz pd mg fp data mtime ⟨inm, ims, ae₁⟩ ho) "ETag" =
      [generate_etag_bytes data] := by
  refine ⟨?_, ?_, ?_⟩
  · rw [getHeader_serveStatic_etag, getHeader_serveStatic_etag]
  · rw [getHeader_serveStatic_lastModified, getHeader_serveStatic_lastModified]
  · rw [getHeader_serveStatic_etag]

/-- C10: the `Content-Type` of a static response is the guessed MIME type
with `; charset=utf-8` appended exactly when the type starts with `text/`
or equals `application/json`; an unguessable type is served as
`application/octet-stream` (bare, since it is neither). -/
theorem c10_content_type (gz : Bytes → Bytes) (pd : String → Option Int)
    (mg : Option String) (fp : String) (data : Bytes) (mtime : Int)
    (req : StaticReq) (ho : Bool) :
    getHeader (serveStatic gz pd mg fp data mtime req ho) "Content-Type" =
      [match mg with
       | none => "application/octet-stream"
       | some m =>
         if pyStartsWith m "text/" || m == "application/json" then m ++ "; charset=utf-8"
         else m] := by
  rw [getHeader_serveStatic_contentType]
  cases mg with
  | none => simp [contentTypeFor, pyStartsWith, strncmpStart]
  | some m =>
    simp only [Option.getD, contentTypeFor]
    split <;> simp_all

/-- C9: routing is a plain string test: any path beginning with the literal
characters `/api` (including `/apifoo`) is dispatched to the proxy and never
reaches static resolution, and the status endpoint matches only the exact
string `/_status` (so `/_status` with a query string is not the status
endpoint). -/
theorem c9_route_classification (fs : FileSystem) (root : String) (p : String) :
    (pyStartsWith p "/api" = true → route fs root p = .proxy p) ∧
    (route fs root p = .statusEp ↔ p = "/_status") := by
  constructor
  · intro h
    have hne : p ≠ "/_status" := by
      intro he
      subst he
      simp [pyStartsWith, strncmpStart] at h
    simp [route, hne, h]
  · constructor
    · intro h
      by_cases h1 : p = "/_status"
      · exact h1
      · exfalso
        unfold route at h
        rw [if_neg h1] at h
        by_cases h2 : pyStartsWith p "/api" = true
        · rw [if_pos h2] at h
          exact RouteResult.noConfusion h
        · rw [if_neg h2] at h
          dsimp only at h
          repeat' split at h
          all_goals exact RouteResult.noConfusion h
    · intro h
      subst h
      simp [route]

/-- Witness for C9 at concrete inputs: `/apifoo` is proxied, `/_status?x=1`
is not the status endpoint. -/
theorem c9_route_classification_witness :
    route ⟨[], []⟩ "/srv/public" "/apifoo" = .proxy "/apifoo" ∧
    route ⟨[], []⟩ "/srv/public" "/_status?x=1" ≠ .statusEp := by
  constructor
  · exact (c9_route_classification ⟨[], []⟩ "/srv/public" "/apifoo").1 (by decide)
  · intro h
    exact absurd ((c9_route_classification ⟨[], []⟩ "/srv/public" "/_status?x=1").2.mp h)
      (by decide)

/-- C4 (code bug): when `If-None-Match` does not match and
`If-Modified-Since` parses to a date `t`, the handler takes the
not-modified branch exactly when the file's last-modified time is not
strictly after `t` — but the `200 OK` status line is already buffered
(line 153), so on that branch it flushes `[200, 304]` and the client parses
status 200 with no body, never a 304.  The fail-open half of the claim
holds: an unparseable date is ignored and the request is answered exactly
as if the header were absent, with a 200 and the full body, never an
error. -/
theorem c4_if_modified_since_attempts_304 (gz : Bytes → Bytes)
    (pd : String → Option Int) (mg : Option String) (fp : String) (data : Bytes)
    (mtime : Int) (inm : Option String) (s : String) (ae : String) (ho : Bool)
    (hmm : inm ≠ some (generate_etag_bytes data)) :
    (∀ t, pd s = some t →
      (serveStatic gz pd mg fp data mtime ⟨inm, some s, ae⟩ ho).statusLines
          = (if mtime ≤ t then [200, 304] else [200]) ∧
      (serveStatic gz pd mg fp data mtime ⟨inm, some s, ae⟩ ho).status = 200 ∧
      (mtime ≤ t →
        (serveStatic gz pd mg fp data mtime ⟨inm, some s, ae⟩ ho).body = none)) ∧
    (pd s = none →
      serveStatic gz pd mg fp data mtime ⟨inm, some s, ae⟩ ho =
        serveStatic gz pd mg fp data mtime ⟨inm, none, ae⟩ ho ∧
      (serveStatic gz pd mg fp data mtime ⟨inm, none, ae⟩ ho).status = 200) := by
  constructor
  · intro t ht
    by_cases hle : mtime ≤ t
    · refine ⟨?_, ?_, fun _ => ?_⟩ <;>
        simp [serveStatic, Response.status, hmm, ht, hle]
    · refine ⟨?_, ?_, fun h => absurd h hle⟩ <;>
        simp [serveStatic, Response.status, hmm, ht, hle]
  · intro hn
    constructor
    · simp [serveStatic, hmm, hn]
    · simp [serveStatic, Response.status, hmm]

/-- Witness for C4's theorem: a concrete date parser, exercising the
not-modified branch (both buffered status lines, client-visible 200) and
the parse-failure branch (fail open to the absent-header response). -/
theorem c4_if_modified_since_attempts_304_witness :
    (serveStatic (fun b => b) (fun s => if s == "d" then some 5 else none) none "f" [] 3
        ⟨none, some "d", ""⟩ false).statusLines
      = (if (3 : Int) ≤ 5 then [200, 304] else [200]) ∧
    (serveStatic (fun b => b) (fun s => if s == "d" then some 5 else none) none "f" [] 3
        ⟨none, some "d", ""⟩ false).status = 200 ∧
    serveStatic (fun b => b) (fun s => if s == "d" then some 5 else none) none "f" [] 3
        ⟨none, some "q", ""⟩ false =
      serveStatic (fun b => b) (fun s => if s == "d" then some 5 else none) none "f" [] 3
        ⟨none, none, ""⟩ false := by
  have h := (c4_if_modified_since_attempts_304 (fun b => b)
    (fun s => if s == "d" then some 5 else none) none "f" [] 3 none "d" "" false
    (by simp)).1 5 rfl
  have h2 := ((c4_if_modified_since_attempts_304 (fun b => b)
    (fun s => if s == "d" then some 5 else none) none "f" [] 3 none "q" "" false
    (by simp)).2 rfl).1
  exact ⟨h.1, h.2.1, h2⟩

/-- C7: for a compressible MIME type and a gzip-accepting client, the
transmitted body is the whole-body compression of the file bytes — so any
decompressor inverting `gz` recovers exactly the bytes served to an
otherwise identical request without gzip support — and `Content-Length` is
the compressed length. -/
theorem c7_gzip_roundtrip (gz gunzip : Bytes → Bytes) (pd : String → Option Int)
    (mime : String) (fp : String) (data : Bytes) (mtime : Int) (ae aePlain : String)
    (hinv : ∀ b, gunzip (gz b) = b)
    (hmime : is_compressible mime = true)
    (hae : pyContains ae "gzip" = true)
    (haePlain : pyContains aePlain "gzip" = false) :
    (serveStatic gz pd (some mime) fp data mtime ⟨none, none, ae⟩ false).body
        = some (gz data) ∧
    (serveStatic gz pd (some mime) fp data mtime ⟨none, none, aePlain⟩ false).body
        = some data ∧
    ((serveStatic gz pd (some mime) fp data mtime ⟨none, none, ae⟩ false).body.map gunzip)
        = (serveStatic gz pd (some mime) fp data mtime ⟨none, none, aePlain⟩ false).body ∧
    getHeader (serveStatic gz pd (some mime) fp data mtime ⟨none, none, ae⟩ false)
        "Content-Length" = [toString (gz data).length] ∧
    getHeader (serveStatic gz pd (some mime) fp data mtime ⟨none, none, ae⟩ false)
        "Content-Encoding" = ["gzip"] := by
  refine ⟨?_, ?_, ?_, ?_, ?_⟩ <;>
    simp [serveStatic, hmime, hae, haePlain, getHeader, hinv]

/-- Witness for C7 at concrete inputs (compressor instantiated with the
identity, which is its own inverse). -/
theorem c7_gzip_roundtrip_witness :
    (serveStatic (fun b => b) (fun _ => none) (some "application/json") "f" [1, 2] 0
        ⟨none, none, "gzip"⟩ false).body = some [1, 2] ∧
    getHeader (serveStatic (fun b => b) (fun _ => none) (some "application/json") "f" [1, 2] 0
        ⟨none, none, "gzip"⟩ false) "Content-Encoding" = ["gzip"] := by
  constructor
  · exact (c7_gzip_roundtrip (fun b => b) (fun b => b) (fun _ => none) "application/json"
      "f" [1, 2] 0 "gzip" "" (fun _ => rfl) (by decide) (by decide) (by decide)).1
  · exact (c7_gzip_roundtrip (fun b => b) (fun b => b) (fun _ => none) "application/json"
      "f" [1, 2] 0 "gzip" "" (fun _ => rfl) (by decide) (by decide) (by decide)).2.2.2.2

lemma containsSub_nil {α : Type} [DecidableEq α] (hay : List α) :
    containsSub hay [] = true := by
  cases hay <;> simp [containsSub, strncmpStart]

lemma strncmpStart_append_self {α : Type} [DecidableEq α] (m x : List α) :
    strncmpStart m (m ++ x) = true := by
  induction m with
  | nil => simp [strncmpStart]
  | cons c t ih => simp [strncmpStart, ih]

lemma containsSub_append_left {α : Type} [DecidableEq α] (x hay m : List α)
    (h : containsSub hay m = true) : containsSub (x ++ hay) m = true := by
  induction x with
  | nil => exact h
  | cons c t ih =>
    have hstep : containsSub ((c :: t) ++ hay) m =
        (strncmpStart m ((c :: t) ++ hay) || containsSub (t ++ hay) m) := rfl
    rw [hstep, ih, Bool.or_true]

lemma containsSub_self_append {α : Type} [DecidableEq α] (m y : List α) :
    containsSub (m ++ y) m = true := by
  cases m with
  | nil => exact containsSub_nil _
  | cons c t =>
    have h := strncmpStart_append_self (c :: t) y
    rw [List.cons_append] at h
    simp [containsSub, h]

lemma string_data_append (a b : String) : (a ++ b).data = a.data ++ b.data := by
  cases a
  cases b
  rfl

lemma strBytes_append (a b : String) : strBytes (a ++ b) = strBytes a ++ strBytes b := by
  simp [strBytes, string_data_append]

/-- The error page body always contains the HTML-escaped message
interpolated by `send_error`. -/
lemma errorBody_contains (code : Nat) (msg explain : String) :
    containsSub (strBytes (errorHTML code msg explain)) (strBytes (htmlEscape msg)) = true := by
  rw [errorHTML]
  simp only [strBytes_append, List.append_assoc]
  apply containsSub_append_left
  apply containsSub_append_left
  apply containsSub_append_left
  exact containsSub_self_append _ _

/-- C2: the traversal guarantee fails.  For the request path
`/%2Fetc/passwd` the decoded path is the absolute `/etc/passwd`; it
normalizes without a leading `..`, so the 403 check passes, and
`os.path.join` with an absolute second argument discards the document root:
static resolution serves `/etc/passwd`, a file outside the document-root
subtree. -/
theorem c2_traversal_escape :
    route ⟨[⟨"/etc/passwd", [114], 0⟩], []⟩ "/srv/public" "/%2Fetc/passwd" =
      .serve "/etc/passwd" ∧
    pyStartsWith "/etc/passwd" "/srv/public" = false ∧
    pyStartsWith (normpath (decodedRel "/%2Fetc/passwd")) ".." = false := by
  decide

set_option maxRecDepth 100000 in
set_option maxHeartbeats 2000000 in
/-- C3 counterexample: the 500 handler interpolates the exception text into
the response body (`send_error(500, f"Server error: {e}")` on line 86), so
an exception whose text mentions an internal path puts that path into the
body sent to the client — and the body is not a fixed generic message: it
differs between exceptions. -/
theorem c3_counterexample :
    containsSub
      ((staticErrorResponse "[Errno 13] Permission denied: /srv/public/secret.txt").body.getD [])
      (strBytes "/srv/public/secret.txt") = true ∧
    staticErrorResponse "errA" ≠ staticErrorResponse "errB" := by
  constructor
  · decide
  · decide

/-- C3 amended: an error response carries the fixed diagnostic prefix
(`Server error: ` for the 500 on static failures, `Proxy error: ` for the
502 on backend failures) followed by the exception's text, HTML-escaped,
inside the standard error page — so exception detail (including any internal
path it mentions) is part of the body. -/
theorem c3_amended (e bh : String) (inb : ProxyInbound) (b : Option Bytes)
    (hb : parseBody inb = .ok b) :
    (staticErrorResponse e).status = 500 ∧
    containsSub ((staticErrorResponse e).body.getD [])
      (strBytes (htmlEscape ("Server error: " ++ e))) = true ∧
    (handleProxy bh inb (fun _ => .error e)).status = 502 ∧
    containsSub ((handleProxy bh inb (fun _ => .error e)).body.getD [])
      (strBytes (htmlEscape ("Proxy error: " ++ e))) = true := by
  refine ⟨rfl, ?_, ?_, ?_⟩
  · simpa [staticErrorResponse, sendError] using
      errorBody_contains 500 ("Server error: " ++ e) (statusExplain 500)
  · simp [handleProxy, hb, sendError, Response.status]
  · simp only [handleProxy, hb]
    simpa [sendError] using
      errorBody_contains 502 ("Proxy error: " ++ e) (statusExplain 502)

/-- Witness for C3's amended claim at a concrete exception and request. -/
theorem c3_amended_witness :
    (staticErrorResponse "boom").status = 500 ∧
    (handleProxy "backend" ⟨"GET", "/api/x", [], []⟩
      (fun _ => .error "boom")).status = 502 := by
  have h := c3_amended "boom" "backend" ⟨"GET", "/api/x", [], []⟩ none rfl
  exact ⟨h.1, h.2.2.1⟩

lemma strncmpStart_extend {α : Type} [DecidableEq α] (p l m : List α)
    (h : strncmpStart p l = true) : strncmpStart p (l ++ m) = true := by
  induction p generalizing l with
  | nil => rfl
  | cons c t ih =>
    cases l with
    | nil => simp [strncmpStart] at h
    | cons b bs =>
      simp only [strncmpStart, Bool.and_eq_true, List.cons_append] at h ⊢
      exact ⟨h.1, ih bs h.2⟩

lemma pyEndsWith_append (a b suf : String) (h : pyEndsWith b suf = true) :
    pyEndsWith (a ++ b) suf = true := by
  unfold pyEndsWith at h ⊢
  rw [string_data_append, List.reverse_append]
  exact strncmpStart_extend _ _ _ h

/-- Joining `index.html` to any root yields a path ending in `.html`. -/
lemma pyEndsWith_osPathJoin_index (root : String) :
    pyEndsWith (osPathJoin root "index.html") ".html" = true := by
  unfold osPathJoin
  rw [if_neg (by decide : ¬ (pyStartsWith "index.html" "/" = true))]
  split
  · exact pyEndsWith_append root "index.html" ".html" (by decide)
  · exact pyEndsWith_append (root ++ "/") "index.html" ".html" (by decide)

lemma lookup_some_pathExists (fs : FileSystem) (p : String) (f : FSFile)
    (h : fs.lookup p = some f) : fs.pathExists p = true := by
  simp [FileSystem.pathExists, h]

/-- C5: a request path (not `/_status`, not under `/api`) that passes the
traversal check but resolves to a nonexistent file is answered from
`index.html` at the document root when such a file exists — 200, that
file's exact content, `Cache-Control: no-cache` — and with 404 Not Found
when it does not; and an empty decoded path defaults to `index.html` (the
routes of `/` and `/index.html` coincide). -/
theorem c5_spa_fallback (gz : Bytes → Bytes) (pd : String → Option Int)
    (guess : String → Option String) (fs : FileSystem) (root : String) (rawPath : String)
    (h1 : rawPath ≠ "/_status")
    (h2 : pyStartsWith rawPath "/api" = false)
    (h3 : pyStartsWith (normpath (decodedRel rawPath)) ".." = false)
    (h4 : fs.pathExists
        (if fs.isdir (osPathJoin root (normpath (decodedRel rawPath))) = true
         then osPathJoin (osPathJoin root (normpath (decodedRel rawPath))) "index.html"
         else osPathJoin root (normpath (decodedRel rawPath))) = false) :
    (∀ file, fs.lookup (osPathJoin root "index.html") = some file →
      doGetStatic gz pd guess fs root rawPath ⟨none, none, ""⟩ false =
        some (serveStatic gz pd (guess (osPathJoin root "index.html"))
          (osPathJoin root "index.html") file.content file.mtime ⟨none, none, ""⟩ false) ∧
      (serveStatic gz pd (guess (osPathJoin root "index.html"))
          (osPathJoin root "index.html") file.content file.mtime
          ⟨none, none, ""⟩ false).status = 200 ∧
      (serveStatic gz pd (guess (osPathJoin root "index.html"))
          (osPathJoin root "index.html") file.content file.mtime
          ⟨none, none, ""⟩ false).body = some file.content ∧
      getHeader (serveStatic gz pd (guess (osPathJoin root "index.html"))
          (osPathJoin root "index.html") file.content file.mtime
          ⟨none, none, ""⟩ false) "Cache-Control" = ["no-cache"]) ∧
    (fs.pathExists (osPathJoin root "index.html") = false →
      route fs root rawPath = .notFound ∧
      doGetStatic gz pd guess fs root rawPath ⟨none, none, ""⟩ false =
        some (sendError 404 "Not Found") ∧
      (sendError 404 "Not Found").status = 404) ∧
    route fs root "/" = route fs root "/index.html" := by
  have hb2 : ¬ (pyStartsWith rawPath "/api" = true) := by simp [h2]
  have hb3 : ¬ (pyStartsWith (normpath (decodedRel rawPath)) ".." = true) := by simp [h3]
  have hroute : route fs root rawPath =
      (if fs.pathExists (osPathJoin root "index.html") = true
       then RouteResult.serve (osPathJoin root "index.html") else .notFound) := by
    unfold route
    rw [if_neg h1, if_neg hb2]
    dsimp only
    rw [if_neg hb3, if_neg (by simp [h4])]
  refine ⟨?_, ?_, ?_⟩
  · intro file hfile
    have hex : fs.pathExists (osPathJoin root "index.html") = true :=
      lookup_some_pathExists fs _ file hfile
    have hserve : route fs root rawPath = .serve (osPathJoin root "index.html") := by
      rw [hroute, if_pos hex]
    refine ⟨?_, ?_, ?_, ?_⟩
    · unfold doGetStatic
      rw [hserve]
      dsimp only
      rw [hfile]
    · simp [serveStatic, Response.status]
    · simp [serveStatic, pyContains, containsSub, strncmpStart]
    · rw [getHeader_serveStatic_cacheControl]
      simp [cacheControlFor, pyEndsWith_osPathJoin_index]
  · intro hno
    have hnr : route fs root rawPath = .notFound := by
      rw [hroute, if_neg (by simp [hno])]
    refine ⟨hnr, ?_, rfl⟩
    unfold doGetStatic
    rw [hnr]
  · have e1 : decodedRel "/" = "index.html" := by decide
    have e2 : decodedRel "/index.html" = "index.html" := by decide
    have n1 : ¬ (("/" : String) = "/_status") := by decide
    have n2 : ¬ (("/index.html" : String) = "/_status") := by decide
    have p1 : ¬ (pyStartsWith "/" "/api" = true) := by decide
    have p2 : ¬ (pyStartsWith "/index.html" "/api" = true) := by decide
    unfold route
    rw [if_neg n1, if_neg n2, if_neg p1, if_neg p2]
    simp only [e1, e2]

/-- Witness for C5: a concrete filesystem with a root directory and an
`index.html`, and a request for a nonexistent path. -/
theorem c5_spa_fallback_witness :
    doGetStatic (fun b => b) (fun _ => none) (fun _ => none)
        ⟨[⟨"/r/index.html", [104, 105], 7⟩], ["/r"]⟩ "/r" "/nope" ⟨none, none, ""⟩ false =
      some (serveStatic (fun b => b) (fun _ => none) none "/r/index.html" [104, 105] 7
        ⟨none, none, ""⟩ false) ∧
    (serveStatic (fun b => b) (fun _ => none) none "/r/index.html" [104, 105] 7
        ⟨none, none, ""⟩ false).status = 200 ∧
    (serveStatic (fun b => b) (fun _ => none) none "/r/index.html" [104, 105] 7
        ⟨none, none, ""⟩ false).body = some [104, 105] ∧
    getHeader (serveStatic (fun b => b) (fun _ => none) none "/r/index.html" [104, 105] 7
        ⟨none, none, ""⟩ false) "Cache-Control" = ["no-cache"] := by
  have h := c5_spa_fallback (fun b => b) (fun _ => none) (fun _ => none)
    ⟨[⟨"/r/index.html", [104, 105], 7⟩], ["/r"]⟩ "/r" "/nope"
    (by decide) (by decide) (by decide) (by decide)
  have h1 := h.1 ⟨"/r/index.html", [104, 105], 7⟩ (by decide)
  exact ⟨h1.1, h1.2.1, h1.2.2.1, h1.2.2.2⟩

lemma find_cons_pos {α : Type} (p : α → Bool) (a : α) (l : List α) (h : p a = true) :
    (a :: l).find? p = some a := by
  simp [List.find?_cons, h]

lemma find_cons_neg {α : Type} (p : α → Bool) (a : α) (l : List α) (h : p a = false) :
    (a :: l).find? p = l.find? p := by
  simp [List.find?_cons, h]

lemma find_append_none {α : Type} (p : α → Bool) (l₁ l₂ : List α)
    (h : l₁.find? p = none) : (l₁ ++ l₂).find? p = l₂.find? p := by
  induction l₁ with
  | nil => simp
  | cons y t ih =>
    cases hy : p y with
    | true =>
      rw [find_cons_pos p y t hy] at h
      exact absurd h (by simp)
    | false =>
      rw [find_cons_neg p y t hy] at h
      rw [List.cons_append, find_cons_neg p y (t ++ l₂) hy]
      exact ih h

lemma find_append_some {α : Type} (p : α → Bool) (l₁ l₂ : List α) (x : α)
    (h : l₁.find? p = some x) : (l₁ ++ l₂).find? p = some x := by
  induction l₁ with
  | nil => simp at h
  | cons y t ih =>
    cases hy : p y with
    | true =>
      rw [find_cons_pos p y t hy] at h
      rw [List.cons_append, find_cons_pos p y (t ++ l₂) hy]
      exact h
    | false =>
      rw [find_cons_neg p y t hy] at h
      rw [List.cons_append, find_cons_neg p y (t ++ l₂) hy]
      exact ih h

lemma find_map_replace (d : List (String × String)) (k v : String)
    (h : d.any (fun kv => kv.1 == k) = true) :
    (d.map (fun kv => if kv.1 == k then (k, v) else kv)).find? (fun kv => kv.1 == k)
      = some (k, v) := by
  induction d with
  | nil => simp at h
  | cons kv tl ih =>
    cases hk : (kv.1 == k) with
    | true =>
      simp only [List.map_cons, if_pos hk]
      rw [find_cons_pos (fun kv => kv.1 == k) (k, v) _ (by simp)]
    | false =>
      simp only [List.any_cons, Bool.or_eq_true] at h
      rcases h with h | h
      · rw [hk] at h
        exact Bool.noConfusion h
      · simp only [List.map_cons,
          if_neg (show ¬((kv.1 == k) = true) from by simp [hk])]
        rw [find_cons_neg (fun kv => kv.1 == k) kv _ hk]
        exact ih h

lemma find_map_replace_other (d : List (String × String)) (a v k : String)
    (h : (a == k) = false) :
    (d.map (fun kv => if kv.1 == a then (a, v) else kv)).find? (fun kv => kv.1 == k)
      = d.find? (fun kv => kv.1 == k) := by
  induction d with
  | nil => simp
  | cons kv tl ih =>
    cases ha : (kv.1 == a) with
    | true =>
      have hkk : (kv.1 == k) = false := by
        have he : kv.1 = a := eq_of_beq ha
        rw [he]
        exact h
      simp only [List.map_cons, if_pos ha]
      rw [find_cons_neg (fun kv => kv.1 == k) (a, v) _ h,
        find_cons_neg (fun kv => kv.1 == k) kv _ hkk]
      exact ih
    | false =>
      simp only [List.map_cons,
        if_neg (show ¬((kv.1 == a) = true) from by simp [ha])]
      cases hkk : (kv.1 == k) with
      | true =>
        rw [find_cons_pos (fun kv => kv.1 == k) kv _ hkk,
          find_cons_pos (fun kv => kv.1 == k) kv _ hkk]
      | false =>
        rw [find_cons_neg (fun kv => kv.1 == k) kv _ hkk,
          find_cons_neg (fun kv => kv.1 == k) kv _ hkk]
        exact ih

lemma dlookup_dictInsert_self (d : List (String × String)) (k v : String) :
    dlookup (dictInsert d k v) k = some v := by
  unfold dictInsert dlookup
  split
  · rename_i h
    rw [find_map_replace d k v h]
    rfl
  · rename_i h
    have hnone : d.find? (fun kv => kv.1 == k) = none := by
      rw [List.find?_eq_none]
      intro x hx hpx
      exact h (List.any_eq_true.mpr ⟨x, hx, hpx⟩)
    rw [find_append_none _ d _ hnone, find_cons_pos (fun kv => kv.1 == k) (k, v) _ (by simp)]
    rfl

lemma dlookup_dictInsert_other (d : List (String × String)) (a v k : String)
    (h : (a == k) = false) : dlookup (dictInsert d a v) k = dlookup d k := by
  unfold dictInsert dlookup
  split
  · rw [find_map_replace_other d a v k h]
  · cases hfd : d.find? (fun kv => kv.1 == k) with
    | some x => rw [find_append_some _ d _ x hfd]
    | none =>
      rw [find_append_none _ d _ hfd]
      rw [find_cons_neg (fun kv => kv.1 == k) (a, v) _ h, List.find?_nil]

/-- Effect of the outbound header-dict comprehension on a non-`Host` key:
the last inbound value for that exact name wins, falling back to the
initial dict. -/
lemma dlookup_headerFold (hs : List (String × String)) (d : List (String × String))
    (k : String) (hk : (pyLower k == "host") = false) :
    dlookup (hs.foldl (fun d kv =>
        if pyLower kv.1 == "host" then d else dictInsert d kv.1 kv.2) d) k =
      (match lastValue hs k with
       | some v => some v
       | none => dlookup d k) := by
  induction hs generalizing d with
  | nil => rfl
  | cons kv tl ih =>
    rw [List.foldl_cons, ih]
    cases hlv : lastValue tl k with
    | some v => simp [lastValue, hlv]
    | none =>
      simp only [lastValue, hlv]
      by_cases hhost : (pyLower kv.1 == "host") = true
      · have hkk : (kv.1 == k) = false := by
          cases hb : (kv.1 == k) with
          | false => rfl
          | true =>
            have he : kv.1 = k := eq_of_beq hb
            rw [he] at hhost
            rw [hhost] at hk
            exact Bool.noConfusion hk
        rw [if_pos hhost, if_neg (by simp [hkk])]
      · rw [if_neg hhost]
        by_cases hkk : (kv.1 == k) = true
        · have he : kv.1 = k := eq_of_beq hkk
          rw [if_pos hkk, ← he]
          exact dlookup_dictInsert_self d kv.1 kv.2
        · rw [if_neg hkk]
          exact dlookup_dictInsert_other d kv.1 kv.2 k
            (by revert hkk; cases (kv.1 == k) <;> simp)

set_option maxRecDepth 4000 in
/-- C8 counterexample: the outbound header dict is built by a Python dict
comprehension, which collapses duplicated request header names to the last
value; with inbound headers `X-A: 1` and `X-A: 2`, the pair `("X-A", "1")`
is not among the forwarded headers, so not every non-`Host` request header
is preserved. -/
theorem c8_counterexample :
    ("X-A", "1") ∉ buildOutboundHeaders "backend" [("X-A", "1"), ("X-A", "2")] := by
  decide

/-- C8 amended: the outbound request preserves method, full path and the
body read per `Content-Length`; for request headers it forwards, per
distinct header name, the last inbound value (duplicates collapsed),
excluding `Host`, which maps to the backend host; the relayed response
keeps the backend's status and exactly its headers minus
`Transfer-Encoding` and `Connection`, plus an added `Vary`. -/
theorem c8_amended (bh : String) (inb : ProxyInbound) (resp : BackendResp) :
    (∀ b, (mkOutbound bh inb b).method = inb.method ∧
      (mkOutbound bh inb b).path = inb.path) ∧
    (∀ k, (pyLower k == "host") = false →
      dlookup (buildOutboundHeaders bh inb.headers) k = lastValue inb.headers k) ∧
    dlookup (buildOutboundHeaders bh inb.headers) "Host" = some bh ∧
    (getFirstCI inb.headers "content-length" = none → parseBody inb = .ok none) ∧
    (∀ s n, getFirstCI inb.headers "content-length" = some s →
      pyInt s = some (Int.ofNat n) → n ≤ inb.bodyStream.length →
      parseBody inb = .ok (some (inb.bodyStream.take n)) ∧
      (inb.bodyStream.take n).length = n) ∧
    (relayResponse resp).status = resp.status ∧
    (∀ kv, kv ∈ resp.headers → (pyLower kv.1 == "transfer-encoding") = false →
      (pyLower kv.1 == "connection") = false → kv ∈ (relayResponse resp).headers) ∧
    (∀ kv, kv ∈ (relayResponse resp).headers →
      kv ∈ resp.headers ∨ kv = ("Vary", "Accept-Encoding")) ∧
    (∀ kv, kv ∈ resp.headers →
      ((pyLower kv.1 == "transfer-encoding") = true ∨
        (pyLower kv.1 == "connection") = true) →
      kv ∉ (relayResponse resp).headers) := by
  refine ⟨fun b => ⟨rfl, rfl⟩, ?_, ?_, ?_, ?_, rfl, ?_, ?_, ?_⟩
  · intro k hk
    unfold buildOutboundHeaders
    rw [dlookup_dictInsert_other _ "Host" bh k ?hne, dlookup_headerFold inb.headers [] k hk]
    · cases lastValue inb.headers k <;> rfl
    case hne =>
      cases hb : ("Host" == k) with
      | false => rfl
      | true =>
        have he : ("Host" : String) = k := eq_of_beq hb
        rw [← he] at hk
        exact absurd hk (by decide)
  · unfold buildOutboundHeaders
    exact dlookup_dictInsert_self _ "Host" bh
  · intro hnone
    unfold parseBody
    rw [hnone]
  · intro s n hs hn hlen
    constructor
    · unfold parseBody
      rw [hs]
      dsimp only
      rw [hn]
      dsimp only
      rw [if_neg (show ¬(Int.ofNat n < 0) from by rw [Int.ofNat_eq_natCast]; omega)]
      rfl
    · simp [List.length_take, Nat.min_eq_left hlen]
  · intro kv hkv hte hcn
    unfold relayResponse
    refine List.mem_append_left _ ?_
    rw [List.mem_filter]
    exact ⟨hkv, by simp [hte, hcn]⟩
  · intro kv hkv
    unfold relayResponse at hkv
    rcases List.mem_append.mp hkv with h | h
    · exact Or.inl (List.mem_filter.mp h).1
    · simp only [List.mem_singleton] at h
      exact Or.inr h
  · intro kv hkv hstrip hmem
    unfold relayResponse at hmem
    rcases List.mem_append.mp hmem with h | h
    · have hp := (List.mem_filter.mp h).2
      rcases hstrip with h1 | h1 <;> simp [h1] at hp
    · simp only [List.mem_singleton] at h
      rw [h] at hstrip
      rcases hstrip with h1 | h1 <;> exact absurd h1 (by decide)

/-- Witness for C8's amended claim at a concrete proxied request. -/
theorem c8_amended_witness :
    dlookup (buildOutboundHeaders "backend"
        [("X-A", "1"), ("X-A", "2"), ("Content-Length", "2"), ("Host", "client")]) "X-A" =
      lastValue [("X-A", "1"), ("X-A", "2"), ("Content-Length", "2"), ("Host", "client")]
        "X-A" ∧
    dlookup (buildOutboundHeaders "backend"
        [("X-A", "1"), ("X-A", "2"), ("Content-Length", "2"), ("Host", "client")]) "Host" =
      some "backend" ∧
    parseBody ⟨"POST", "/api/z?q=1",
        [("X-A", "1"), ("X-A", "2"), ("Content-Length", "2"), ("Host", "client")],
        [9, 8, 7]⟩ = .ok (some [9, 8]) := by
  have h := c8_amended "backend"
    ⟨"POST", "/api/z?q=1",
      [("X-A", "1"), ("X-A", "2"), ("Content-Length", "2"), ("Host", "client")],
      [9, 8, 7]⟩ ⟨200, "OK", [], []⟩
  refine ⟨h.2.1 "X-A" (by decide), h.2.2.1, ?_⟩
  have hb := (h.2.2.2.2.1 "2" 2 rfl (by decide) (by decide)).1
  exact hb

end MiniNginx
